import Mathlib

/-!
# Shallow embedding of `auto_uncertainties/uncertainty.py`

The source implements an `Uncertainty` class pairing a nominal magnitude with
an error magnitude (NumPy scalars or arrays).  The embedding idealizes Python
floats as real numbers (`ℝ`); float `NaN`/`inf` have no counterpart here, and
the few places where the source can produce them (`relative` on a zero
nominal, division by zero) are represented by distinguished non-value
outcomes that no theorem below relies on.  Magnitudes are modelled as either
a scalar or a one-dimensional array; raised Python exceptions are modelled
with `Except`.
-/

namespace AutoUncertainties

open Classical

/-- A NumPy magnitude: a scalar float or a one-dimensional array of floats,
with floats idealized as real numbers. -/
inductive Mag where
  | scalar (x : ℝ)
  | array (xs : List ℝ)

/-- `np.shape`: `()` for a scalar, `(n,)` for a length-`n` array. -/
def Mag.shape : Mag → List Nat
  | .scalar _ => []
  | .array xs => [xs.length]

/-- The elements of `np.atleast_1d(m)`: a scalar becomes a one-element
array, an array is unchanged. -/
def Mag.elems : Mag → List ℝ
  | .scalar x => [x]
  | .array xs => xs

/-- `is_np_duck_array(type(m))`: whether the magnitude is array-backed. -/
def Mag.isArray : Mag → Bool
  | .scalar _ => false
  | .array _ => true

/-- Elementwise binary operation with NumPy broadcasting between scalars and
one-dimensional arrays; `none` models the broadcast error NumPy raises on
arrays of different lengths.  (NumPy additionally broadcasts a length-1
array against a longer one; that case is not modelled and only arises here
for shape-invalid instances.) -/
def Mag.map2 (f : ℝ → ℝ → ℝ) : Mag → Mag → Option Mag
  | .scalar a, .scalar b => some (.scalar (f a b))
  | .scalar a, .array bs => some (.array (bs.map fun b => f a b))
  | .array as, .scalar b => some (.array (as.map fun a => f a b))
  | .array as, .array bs =>
      if as.length = bs.length then some (.array (List.zipWith f as bs))
      else none

/-- Elementwise unary operation on a magnitude. -/
def Mag.map (f : ℝ → ℝ) : Mag → Mag
  | .scalar a => .scalar (f a)
  | .array as => .array (as.map f)

/-- The exceptional outcomes of the modelled methods.

* `shapeMismatch` — the `AssertionError` of the `assert np.shape(value) ==
  np.shape(err)` in `__new__` (the spec's `ShapeMismatch`);
* `negativeStdDev` — the raised `NegativeStdDevError` (the spec's
  `NegativeErrorValue`);
* `broadcastError` — NumPy's broadcast failure on arrays of unequal length;
* `nanResult` — the outcome of an operation whose source-level result would
  carry a float `NaN` (zero nominal feeding `relative`), or the `ValueError`
  of an ambiguous array truth test inside `relative`; real numbers have no
  `NaN`, so this region of the source is marked rather than modelled, and no
  theorem below visits it;
* `typeError`, `indexError`, `attributeError`, `valueError` — the
  corresponding raised Python exceptions (`TypeError` from `__getitem__` on a
  scalar, `IndexError` on an out-of-range index, `AttributeError` from
  structural methods on scalars, `ValueError` from `__setitem__` and
  friends);
* `exceptionRaised` — the bare `raise Exception` in `__rtruediv__`. -/
inductive PyError where
  | shapeMismatch
  | negativeStdDev
  | broadcastError
  | nanResult
  | typeError
  | indexError
  | attributeError
  | valueError
  | exceptionRaised
  deriving DecidableEq

/-- The `Uncertainty` instance state: the `_nom` and `_err` attributes. -/
structure Uncertainty where
  nom : Mag
  err : Mag

/-- The `other` operand of a binary method: either another `Uncertainty`
(the `isinstance(other, Uncertainty)` branch) or a plain number/array. -/
inductive Operand where
  | u (x : Uncertainty)
  | pn (m : Mag)

/-- `Uncertainty.__new__(cls, value, err)`: asserts
`np.shape(value) == np.shape(err)` (an `AssertionError` on failure), raises
`NegativeStdDevError` if `np.any(np.atleast_1d(err) < 0)`, and otherwise
stores the pair unchanged. -/
noncomputable def Uncertainty.new (value err : Mag) : Except PyError Uncertainty :=
  if value.shape = err.shape then
    if ∃ x ∈ err.elems, x < 0 then .error .negativeStdDev
    else .ok ⟨value, err⟩
  else .error .shapeMismatch

/-- The `value` property: returns `self._nom`. -/
def Uncertainty.value (s : Uncertainty) : Mag := s.nom

/-- The `error` property: returns `self._err`. -/
def Uncertainty.error (s : Uncertainty) : Mag := s.err

/-- The `relative` property: `self._err / self._nom` (elementwise) when the
truth test `self._nom != 0` passes, and `np.NaN` otherwise.  The truth test
succeeds on a scalar nominal and on a one-element array nominal (truthy iff
the element is nonzero) and raises `ValueError` on any other array.  The
model has no `NaN`, so the zero-nominal branch and the raised `ValueError`
are both collapsed to `none`; callers turn `none` into the distinguished
`.nanResult` outcome, which no theorem below visits. -/
noncomputable def Uncertainty.relative (s : Uncertainty) : Option Mag :=
  match s.nom with
  | .scalar n => if n ≠ 0 then s.err.map2 (· / ·) (.scalar n) else none
  | .array [a] => if a ≠ 0 then s.err.map2 (· / ·) (.array [a]) else none
  | .array _ => none

/-- Python float floor division `a // b`, i.e. `⌊a / b⌋` as a float. -/
noncomputable def fdivR (a b : ℝ) : ℝ := ⌊a / b⌋

/-- Python float modulo `a % b`, i.e. `a - b * ⌊a / b⌋`. -/
noncomputable def pmodR (a b : ℝ) : ℝ := a - b * ⌊a / b⌋

/-- `Uncertainty.__add__`: against another `Uncertainty`, nominal `x + y` and
error `sqrt(ex² + ey²)` elementwise; against a plain operand, nominal
`x + other` with the error kept unchanged. The result is rebuilt through
`__new__`. -/
noncomputable def Uncertainty.add (s : Uncertainty) (o : Operand) :
    Except PyError Uncertainty :=
  match o with
  | .u other =>
      match s.nom.map2 (· + ·) other.nom,
            s.err.map2 (fun a b => Real.sqrt (a ^ 2 + b ^ 2)) other.err with
      | some new_mag, some new_err => Uncertainty.new new_mag new_err
      | _, _ => .error .broadcastError
  | .pn m =>
      match s.nom.map2 (· + ·) m with
      | some new_mag => Uncertainty.new new_mag s.err
      | none => .error .broadcastError

/-- `Uncertainty.__sub__`: as `__add__` with nominal `x - y`; the error is
again the quadrature `sqrt(ex² + ey²)` in the `Uncertainty` branch and
unchanged in the plain branch. -/
noncomputable def Uncertainty.sub (s : Uncertainty) (o : Operand) :
    Except PyError Uncertainty :=
  match o with
  | .u other =>
      match s.nom.map2 (· - ·) other.nom,
            s.err.map2 (fun a b => Real.sqrt (a ^ 2 + b ^ 2)) other.err with
      | some new_mag, some new_err => Uncertainty.new new_mag new_err
      | _, _ => .error .broadcastError
  | .pn m =>
      match s.nom.map2 (· - ·) m with
      | some new_mag => Uncertainty.new new_mag s.err
      | none => .error .broadcastError

/-- `Uncertainty.__neg__`: `self.__class__(operator.neg(self._nom), self._err)`. -/
noncomputable def Uncertainty.neg (s : Uncertainty) : Except PyError Uncertainty :=
  Uncertainty.new (s.nom.map (fun a => -a)) s.err

/-- `Uncertainty.__mul__`: against another `Uncertainty`, nominal
`x * y` and error `new_mag * sqrt(self.rel² + other.rel²)` (all elementwise)
— note the source multiplies by the *signed* `new_mag`, not its absolute
value; against a plain operand, nominal `x * other` and error `ex * other` —
again signed. The branch in which either `rel` is `NaN` (zero nominal) or
raises is `.error .nanResult` (see `PyError.nanResult`). -/
noncomputable def Uncertainty.mul (s : Uncertainty) (o : Operand) :
    Except PyError Uncertainty :=
  match o with
  | .u other =>
      match s.nom.map2 (· * ·) other.nom with
      | some new_mag =>
          match s.relative, other.relative with
          | some ra, some rb =>
              match ra.map2 (fun a b => Real.sqrt (a ^ 2 + b ^ 2)) rb with
              | some sq =>
                  match new_mag.map2 (· * ·) sq with
                  | some new_err => Uncertainty.new new_mag new_err
                  | none => .error .broadcastError
              | none => .error .broadcastError
          | _, _ => .error .nanResult
      | none => .error .broadcastError
  | .pn m =>
      match s.nom.map2 (· * ·) m, s.err.map2 (· * ·) m with
      | some new_mag, some new_err => Uncertainty.new new_mag new_err
      | _, _ => .error .broadcastError

/-- `Uncertainty.__truediv__`: against another `Uncertainty`, nominal
`x / y` and error `new_mag * sqrt(self.rel² + other.rel²)` (all elementwise)
— as in `__mul__` the source multiplies by the *signed* quotient, not its
absolute value; against a plain operand, nominal `x / other` and error
`ex / other`. -/
noncomputable def Uncertainty.truediv (s : Uncertainty) (o : Operand) :
    Except PyError Uncertainty :=
  match o with
  | .u other =>
      match s.nom.map2 (· / ·) other.nom with
      | some new_mag =>
          match s.relative, other.relative with
          | some ra, some rb =>
              match ra.map2 (fun a b => Real.sqrt (a ^ 2 + b ^ 2)) rb with
              | some sq =>
                  match new_mag.map2 (· * ·) sq with
                  | some new_err => Uncertainty.new new_mag new_err
                  | none => .error .broadcastError
              | none => .error .broadcastError
          | _, _ => .error .nanResult
      | none => .error .broadcastError
  | .pn m =>
      match s.nom.map2 (· / ·) m, s.err.map2 (· / ·) m with
      | some new_mag, some new_err => Uncertainty.new new_mag new_err
      | _, _ => .error .broadcastError

/-- `Uncertainty.__floordiv__`: nominal `self._nom // other` (against the
other nominal in the `Uncertainty` branch) and error the Python float `0.0`
in both branches. -/
noncomputable def Uncertainty.floordiv (s : Uncertainty) (o : Operand) :
    Except PyError Uncertainty :=
  match o with
  | .u other =>
      match s.nom.map2 fdivR other.nom with
      | some new_mag => Uncertainty.new new_mag (.scalar 0)
      | none => .error .broadcastError
  | .pn m =>
      match s.nom.map2 fdivR m with
      | some new_mag => Uncertainty.new new_mag (.scalar 0)
      | none => .error .broadcastError

/-- `Uncertainty.__mod__`: nominal `self._nom % other` and error the Python
float `0.0` in both branches. -/
noncomputable def Uncertainty.mod (s : Uncertainty) (o : Operand) :
    Except PyError Uncertainty :=
  match o with
  | .u other =>
      match s.nom.map2 pmodR other.nom with
      | some new_mag => Uncertainty.new new_mag (.scalar 0)
      | none => .error .broadcastError
  | .pn m =>
      match s.nom.map2 pmodR m with
      | some new_mag => Uncertainty.new new_mag (.scalar 0)
      | none => .error .broadcastError

/-- `Uncertainty.__pow__`: the source computes `new_mag = self._nom %
other._nom` (resp. `self._nom % other`) — the **modulo** operation, not a
power — with error the Python float `0.0` in both branches. -/
noncomputable def Uncertainty.pow (s : Uncertainty) (o : Operand) :
    Except PyError Uncertainty :=
  match o with
  | .u other =>
      match s.nom.map2 pmodR other.nom with
      | some new_mag => Uncertainty.new new_mag (.scalar 0)
      | none => .error .broadcastError
  | .pn m =>
      match s.nom.map2 pmodR m with
      | some new_mag => Uncertainty.new new_mag (.scalar 0)
      | none => .error .broadcastError

/-- `Uncertainty.__rtruediv__` (`other / self`): raises a bare `Exception`
on an `Uncertainty` operand; otherwise nominal `other / self._nom` and error
`new_mag * self.rel` (elementwise) — again the signed product. -/
noncomputable def Uncertainty.rtruediv (s : Uncertainty) (o : Operand) :
    Except PyError Uncertainty :=
  match o with
  | .u _ => .error .exceptionRaised
  | .pn m =>
      match m.map2 (· / ·) s.nom with
      | some new_mag =>
          match s.relative with
          | some r =>
              match new_mag.map2 (· * ·) r with
              | some new_err => Uncertainty.new new_mag new_err
              | none => .error .broadcastError
          | none => .error .nanResult
      | none => .error .broadcastError

/-- `Uncertainty.__rfloordiv__`: on an `Uncertainty` operand the source
delegates to `other.__truediv__(self)` (true division, another oddity);
otherwise nominal `other // self._nom` with error the float `0.0`. -/
noncomputable def Uncertainty.rfloordiv (s : Uncertainty) (o : Operand) :
    Except PyError Uncertainty :=
  match o with
  | .u other => other.truediv (.u s)
  | .pn m =>
      match m.map2 fdivR s.nom with
      | some new_mag => Uncertainty.new new_mag (.scalar 0)
      | none => .error .broadcastError

/-- `Uncertainty.__rmod__`: nominal `other % self._nom` with error the float
`0.0` (the other operand is plain, as Python dispatches `__rmod__` only
then). -/
noncomputable def Uncertainty.rmod (s : Uncertainty) (m : Mag) :
    Except PyError Uncertainty :=
  match m.map2 pmodR s.nom with
  | some new_mag => Uncertainty.new new_mag (.scalar 0)
  | none => .error .broadcastError

/-- `Uncertainty.__rpow__`: the source again computes `other % self._nom` —
modulo, not a power — with error the float `0.0`. -/
noncomputable def Uncertainty.rpow (s : Uncertainty) (m : Mag) :
    Except PyError Uncertainty :=
  match m.map2 pmodR s.nom with
  | some new_mag => Uncertainty.new new_mag (.scalar 0)
  | none => .error .broadcastError

/-- `Uncertainty.__divmod__`: `(self // other, self % other)`, the first
raised exception propagating. -/
noncomputable def Uncertainty.divmod (s : Uncertainty) (o : Operand) :
    Except PyError (Uncertainty × Uncertainty) :=
  match s.floordiv o with
  | .error e => .error e
  | .ok f =>
      match s.mod o with
      | .error e => .error e
      | .ok m => .ok (f, m)

/-- `Uncertainty.__rdivmod__`: `(other // self, other % self)`, dispatching
to `__rfloordiv__` and `__rmod__` for a plain operand. -/
noncomputable def Uncertainty.rdivmod (s : Uncertainty) (m : Mag) :
    Except PyError (Uncertainty × Uncertainty) :=
  match s.rfloordiv (.pn m) with
  | .error e => .error e
  | .ok f =>
      match s.rmod m with
      | .error e => .error e
      | .ok r => .ok (f, r)

/-- `Uncertainty.__abs__`: `self.__class__(abs(self._nom), self._err)`. -/
noncomputable def Uncertainty.abs (s : Uncertainty) : Except PyError Uncertainty :=
  Uncertainty.new (s.nom.map (fun a => |a|)) s.err

/-- `Uncertainty.__pos__`: `self.__class__(operator.pos(self._nom),
self._err)`; `operator.pos` is the identity on floats and arrays. -/
noncomputable def Uncertainty.pos (s : Uncertainty) : Except PyError Uncertainty :=
  Uncertainty.new (s.nom.map (fun a => a)) s.err

/-- `Uncertainty.__round__`: `self.__class__(round(self._nom, ndigits),
self._err)`.  Python's float `round` (banker's rounding on binary floats) is
a float-specific primitive, abstracted here as the function `rnd`; the
builtin `round` requires a `__round__` method, which ndarrays lack, so the
array case raises `TypeError`. -/
noncomputable def Uncertainty.round (s : Uncertainty) (rnd : ℝ → ℝ) :
    Except PyError Uncertainty :=
  match s.nom with
  | .scalar n => Uncertainty.new (.scalar (rnd n)) s.err
  | .array _ => .error .typeError

/-- The `real` property: `self.__class__(self._nom.real, self._err.real)`;
`.real` is the identity on real floats and float arrays. -/
noncomputable def Uncertainty.real (s : Uncertainty) : Except PyError Uncertainty :=
  Uncertainty.new (s.nom.map (fun a => a)) (s.err.map (fun a => a))

/-- The `imag` property: `self.__class__(self._nom.imag, self._err.imag)`;
`.imag` of a real float or float array is zero of the same shape. -/
noncomputable def Uncertainty.imag (s : Uncertainty) : Except PyError Uncertainty :=
  Uncertainty.new (s.nom.map (fun _ => 0)) (s.err.map (fun _ => 0))

/-- `Uncertainty.__copy__` / `__deepcopy__`: rebuilds the instance from
copies of its magnitudes through the constructor (copying a magnitude
preserves its value, which is all the value-level model sees). -/
noncomputable def Uncertainty.copy (s : Uncertainty) : Except PyError Uncertainty :=
  Uncertainty.new s.nom s.err

/-- `Uncertainty.__getitem__`: builds a new instance from indexing both
magnitudes with the same key; indexing a scalar raises `TypeError` (caught
and re-raised by the source), an out-of-range index raises `IndexError`
(which propagates). -/
noncomputable def Uncertainty.getitem (s : Uncertainty) (key : Nat) :
    Except PyError Uncertainty :=
  match s.nom, s.err with
  | .array ns, .array es =>
      if h : key < ns.length ∧ key < es.length then
        Uncertainty.new (.scalar (ns.get ⟨key, h.1⟩))
          (.scalar (es.get ⟨key, h.2⟩))
      else .error .indexError
  | _, _ => .error .typeError

/-- NumPy `clip(a, lo, hi)` on one element: `min(max(a, lo), hi)` with
absent bounds skipped. -/
noncomputable def clipR (lo hi : Option ℝ) (a : ℝ) : ℝ :=
  match lo, hi with
  | some l, some h => min (max a l) h
  | some l, none => max a l
  | none, some h => min a h
  | none, none => a

/-- `Uncertainty.clip`: `self.__class__(self._nom.clip(min, max, ...),
self._err)` — the clip applies to the nominal only, the error passes
through.  A scalar float has no `clip` method (`AttributeError`), and NumPy
rejects a clip with neither bound (`ValueError`). -/
noncomputable def Uncertainty.clip (s : Uncertainty) (lo hi : Option ℝ) :
    Except PyError Uncertainty :=
  match s.nom with
  | .scalar _ => .error .attributeError
  | .array ns =>
      match lo, hi with
      | none, none => .error .valueError
      | _, _ => Uncertainty.new (.array (ns.map (clipR lo hi))) s.err

/-- `Uncertainty.__iter__`: `for v, e in zip(self._nom, self._err): yield
self.__class__(v, e)` — one constructed scalar instance per zipped pair;
iterating a scalar magnitude raises `TypeError`. -/
noncomputable def Uncertainty.iter (s : Uncertainty) :
    Except PyError (List (Except PyError Uncertainty)) :=
  match s.nom, s.err with
  | .array ns, .array es =>
      .ok ((List.zip ns es).map fun p =>
        Uncertainty.new (.scalar p.1) (.scalar p.2))
  | _, _ => .error .typeError

/-- `Uncertainty.from_sequence` (and its alias `from_list`): pre-allocates
nominal/error arrays of the sequence's length, fills them with the
elements' scalar `_nom`/`_err` in order (assigning a non-scalar element
into a float cell raises, collapsed to `.valueError`), then constructs the
aggregate through the constructor. -/
noncomputable def Uncertainty.from_sequence (seq : List Uncertainty) :
    Except PyError Uncertainty :=
  match seq.mapM (fun u => match u.nom with | .scalar x => some x | _ => none),
        seq.mapM (fun u => match u.err with | .scalar x => some x | _ => none) with
  | some vs, some es => Uncertainty.new (.array vs) (.array es)
  | _, _ => .error .valueError

/-- `Uncertainty.tolist`: `self._nom.tolist()` on a scalar float raises
`AttributeError` (caught and re-raised).  On arrays, the source's loop
`for n, e in (nom, err)` iterates the *pair* of the two lists, unpacking
each whole list into two variables: it succeeds only for length-2 arrays —
yielding `[cls(nom[0], nom[1]), cls(err[0], err[1])]`, each pair again built
through the constructor — and raises `ValueError` otherwise. -/
noncomputable def Uncertainty.tolist (s : Uncertainty) :
    Except PyError (List (Except PyError Uncertainty)) :=
  match s.nom, s.err with
  | .array [n0, n1], .array [e0, e1] =>
      .ok [Uncertainty.new (.scalar n0) (.scalar n1),
           Uncertainty.new (.scalar e0) (.scalar e1)]
  | .array _, .array _ => .error .valueError
  | _, _ => .error .attributeError

/-- `Uncertainty.__setitem__`: requires an `Uncertainty` value (else
`ValueError`), probes `self._nom[key]` (`TypeError` on a scalar nominal,
`IndexError` out of range), then writes both components at `key`.  Writing
a non-scalar component (NumPy broadcast assignment) and the out-of-range
second write of a shape-invalid instance are collapsed to `.valueError`.
The result is the updated state of `self`. -/
noncomputable def Uncertainty.setitem (s : Uncertainty) (key : Nat)
    (v : Operand) : Except PyError Uncertainty :=
  match v with
  | .pn _ => .error .valueError
  | .u value =>
      match s.nom, s.err with
      | .array ns, .array es =>
          if key < ns.length then
            match value.nom, value.err with
            | .scalar vn, .scalar ve =>
                .ok ⟨.array (ns.set key vn), .array (es.set key ve)⟩
            | _, _ => .error .valueError
          else .error .indexError
      | _, _ => .error .typeError

/-- The `shape` property setter: assigns `value` to both buffers' `shape`
attributes in turn.  In this one-dimensional model the only size-compatible
assignment to a length-`L` array is `[L]` itself (multi-dimensional
reshapes are outside the model); an incompatible size raises, and a scalar
float has no assignable `shape` attribute. -/
noncomputable def Uncertainty.setShape (s : Uncertainty) (value : List Nat) :
    Except PyError Uncertainty :=
  match s.nom, s.err with
  | .array ns, .array es =>
      if value = [ns.length] then
        if value = [es.length] then .ok ⟨.array ns, .array es⟩
        else .error .valueError
      else .error .valueError
  | _, _ => .error .attributeError

/-- NumPy `==` on scalar magnitudes: real equality.  On array operands NumPy
returns an elementwise boolean array rather than a single truth value; that
region is outside this scalar model (`False` here) and no theorem visits
it. -/
def Mag.eqP : Mag → Mag → Prop
  | .scalar a, .scalar b => a = b
  | _, _ => False

/-- `operator.lt` on scalar magnitudes (array case as in `Mag.eqP`). -/
def Mag.ltP : Mag → Mag → Prop
  | .scalar a, .scalar b => a < b
  | _, _ => False

/-- `operator.le` on scalar magnitudes (array case as in `Mag.eqP`). -/
def Mag.leP : Mag → Mag → Prop
  | .scalar a, .scalar b => a ≤ b
  | _, _ => False

/-- `operator.gt` on scalar magnitudes (array case as in `Mag.eqP`). -/
def Mag.gtP : Mag → Mag → Prop
  | .scalar a, .scalar b => b < a
  | _, _ => False

/-- `operator.ge` on scalar magnitudes (array case as in `Mag.eqP`). -/
def Mag.geP : Mag → Mag → Prop
  | .scalar a, .scalar b => b ≤ a
  | _, _ => False

/-- `Uncertainty.__eq__`: compares `self._nom` with `other._nom` when the
other operand is an `Uncertainty`, and with the plain operand itself
otherwise; the error attributes never participate. -/
def Uncertainty.eqOp (s : Uncertainty) (o : Operand) : Prop :=
  match o with
  | .u other => Mag.eqP s.nom other.nom
  | .pn m => Mag.eqP s.nom m

/-- `Uncertainty.compare`: applies `op` to `self._nom` and `other._nom`
(resp. the plain operand). -/
def Uncertainty.compare (s : Uncertainty) (o : Operand)
    (op : Mag → Mag → Prop) : Prop :=
  match o with
  | .u other => op s.nom other.nom
  | .pn m => op s.nom m

/-- `Uncertainty.__lt__ = lambda self, other: self.compare(other, op=operator.lt)`. -/
def Uncertainty.lt (s : Uncertainty) (o : Operand) : Prop := s.compare o Mag.ltP

/-- `Uncertainty.__le__`. -/
def Uncertainty.le (s : Uncertainty) (o : Operand) : Prop := s.compare o Mag.leP

/-- `Uncertainty.__gt__`. -/
def Uncertainty.gt (s : Uncertainty) (o : Operand) : Prop := s.compare o Mag.gtP

/-- `Uncertainty.__ge__`. -/
def Uncertainty.ge (s : Uncertainty) (o : Operand) : Prop := s.compare o Mag.geP

/-- `bool()` of a magnitude: a scalar float is truthy iff it is nonzero.
`bool()` of a NumPy array raises unless it has exactly one element; the
array branch is outside this scalar model (`False` here) and no theorem
visits it. -/
def Mag.truthy : Mag → Prop
  | .scalar x => x ≠ 0
  | .array _ => False

/-- `Uncertainty.__bool__`: `bool(self._nom)`. -/
def Uncertainty.toBool (s : Uncertainty) : Prop := s.nom.truthy

/-- The observable outcome of an in-place operator call: the object the call
returns, the state of `self`'s attributes after the call, and whether the
returned object is the very `self` instance (Python object identity). -/
structure CallResult where
  ret : Uncertainty
  selfAfter : Uncertainty
  retIsSelf : Bool

/-- `Uncertainty.__iadd__`: computes `new = self + other`; when
`is_np_duck_array(type(self._nom))` holds it reassigns `self._err` and
`self._nom` to `new`'s fields and returns `self` itself, otherwise it leaves
`self` untouched and returns the fresh instance `new`. -/
noncomputable def Uncertainty.iadd (s : Uncertainty) (o : Operand) :
    Except PyError CallResult :=
  match s.add o with
  | .error e => .error e
  | .ok new =>
      if s.nom.isArray then .ok ⟨⟨new.nom, new.err⟩, ⟨new.nom, new.err⟩, true⟩
      else .ok ⟨new, s, false⟩

/-- The shared body of the remaining in-place operators `__isub__`,
`__imul__`, `__itruediv__`, `__ifloordiv__`, `__imod__`, `__ipow__`
(`__iadd__` is the same pattern, modelled separately as
`Uncertainty.iadd`): compute `new = self <op> other`; for an array-backed
nominal rebind `self`'s attributes to `new`'s and return `self` itself,
otherwise return the fresh `new`. -/
noncomputable def Uncertainty.inplace
    (op : Uncertainty → Operand → Except PyError Uncertainty)
    (s : Uncertainty) (o : Operand) : Except PyError CallResult :=
  match op s o with
  | .error e => .error e
  | .ok new =>
      if s.nom.isArray then .ok ⟨⟨new.nom, new.err⟩, ⟨new.nom, new.err⟩, true⟩
      else .ok ⟨new, s, false⟩

/-- `Uncertainty.__isub__`. -/
noncomputable def Uncertainty.isub : Uncertainty → Operand →
    Except PyError CallResult :=
  Uncertainty.inplace Uncertainty.sub

/-- `Uncertainty.__imul__`. -/
noncomputable def Uncertainty.imul : Uncertainty → Operand →
    Except PyError CallResult :=
  Uncertainty.inplace Uncertainty.mul

/-- `Uncertainty.__itruediv__` (and its alias `__idiv__`). -/
noncomputable def Uncertainty.itruediv : Uncertainty → Operand →
    Except PyError CallResult :=
  Uncertainty.inplace Uncertainty.truediv

/-- `Uncertainty.__ifloordiv__`. -/
noncomputable def Uncertainty.ifloordiv : Uncertainty → Operand →
    Except PyError CallResult :=
  Uncertainty.inplace Uncertainty.floordiv

/-- `Uncertainty.__imod__`. -/
noncomputable def Uncertainty.imod : Uncertainty → Operand →
    Except PyError CallResult :=
  Uncertainty.inplace Uncertainty.mod

/-- `Uncertainty.__ipow__`. -/
noncomputable def Uncertainty.ipow : Uncertainty → Operand →
    Except PyError CallResult :=
  Uncertainty.inplace Uncertainty.pow

/-- `Uncertainty.__rsub__`: the body evaluates `-self.__sub__(other)` — the
negated difference — but contains no `return`, so whenever the evaluation
does not raise, Python returns `None` (`some` result never occurs). -/
noncomputable def Uncertainty.rsub (s : Uncertainty) (o : Operand) :
    Except PyError (Option Uncertainty) :=
  match s.sub o with
  | .error e => .error e
  | .ok d =>
      match d.neg with
      | .error e => .error e
      | .ok _ => .ok none

/- ### Shared evaluation lemmas for the constructor -/

/-- Successful construction when shapes match and no error element is
negative. -/
theorem new_ok_of (v e : Mag) (hsh : v.shape = e.shape)
    (h : ∀ x ∈ e.elems, 0 ≤ x) :
    Uncertainty.new v e = .ok ⟨v, e⟩ := by
  unfold Uncertainty.new
  rw [if_pos hsh, if_neg]
  rintro ⟨x, hx, hlt⟩
  exact absurd hlt (not_lt.mpr (h x hx))

/-- Construction raises `NegativeStdDevError` when shapes match and some
error element is negative. -/
theorem new_neg_elem (v e : Mag) (hsh : v.shape = e.shape)
    (hneg : ∃ x ∈ e.elems, x < 0) :
    Uncertainty.new v e = .error .negativeStdDev := by
  unfold Uncertainty.new
  rw [if_pos hsh, if_pos hneg]

/-- A successfully constructed instance records shape-matching magnitudes. -/
theorem new_ok_shape (v e : Mag) (u : Uncertainty)
    (h : Uncertainty.new v e = .ok u) :
    u.nom.shape = u.err.shape := by
  unfold Uncertainty.new at h
  by_cases hsh : v.shape = e.shape
  · rw [if_pos hsh] at h
    by_cases hneg : ∃ x ∈ e.elems, x < 0
    · rw [if_pos hneg] at h; exact absurd h (by simp)
    · rw [if_neg hneg] at h
      obtain rfl : (⟨v, e⟩ : Uncertainty) = u := by
        simpa using h
      exact hsh
  · rw [if_neg hsh] at h; exact absurd h (by simp)

/-- The shape invariant of the data model: the two magnitudes of an
instance have equal NumPy shapes. -/
abbrev ShapeOk (u : Uncertainty) : Prop := u.nom.shape = u.err.shape

/- ### Per-operation shape lemmas: every operation that produces an
instance does so through `Uncertainty.new`, so its successful results
satisfy the invariant. -/

theorem add_ok_shape (s : Uncertainty) (o : Operand) (u : Uncertainty)
    (h : Uncertainty.add s o = .ok u) : ShapeOk u := by
  cases o <;> unfold Uncertainty.add at h
  all_goals repeat' split at h
  all_goals first | exact new_ok_shape _ _ _ h | simp at h

theorem sub_ok_shape (s : Uncertainty) (o : Operand) (u : Uncertainty)
    (h : Uncertainty.sub s o = .ok u) : ShapeOk u := by
  cases o <;> unfold Uncertainty.sub at h
  all_goals repeat' split at h
  all_goals first | exact new_ok_shape _ _ _ h | simp at h

theorem neg_ok_shape (s u : Uncertainty)
    (h : Uncertainty.neg s = .ok u) : ShapeOk u := by
  unfold Uncertainty.neg at h
  exact new_ok_shape _ _ _ h

theorem mul_ok_shape (s : Uncertainty) (o : Operand) (u : Uncertainty)
    (h : Uncertainty.mul s o = .ok u) : ShapeOk u := by
  cases o <;> unfold Uncertainty.mul at h
  all_goals repeat' split at h
  all_goals first | exact new_ok_shape _ _ _ h | simp at h

theorem truediv_ok_shape (s : Uncertainty) (o : Operand) (u : Uncertainty)
    (h : Uncertainty.truediv s o = .ok u) : ShapeOk u := by
  cases o <;> unfold Uncertainty.truediv at h
  all_goals repeat' split at h
  all_goals first | exact new_ok_shape _ _ _ h | simp at h

theorem rtruediv_ok_shape (s : Uncertainty) (o : Operand) (u : Uncertainty)
    (h : Uncertainty.rtruediv s o = .ok u) : ShapeOk u := by
  cases o <;> unfold Uncertainty.rtruediv at h
  all_goals repeat' split at h
  all_goals first | exact new_ok_shape _ _ _ h | simp at h

theorem floordiv_ok_shape (s : Uncertainty) (o : Operand) (u : Uncertainty)
    (h : Uncertainty.floordiv s o = .ok u) : ShapeOk u := by
  cases o <;> unfold Uncertainty.floordiv at h
  all_goals repeat' split at h
  all_goals first | exact new_ok_shape _ _ _ h | simp at h

theorem rfloordiv_ok_shape (s : Uncertainty) (o : Operand) (u : Uncertainty)
    (h : Uncertainty.rfloordiv s o = .ok u) : ShapeOk u := by
  cases o with
  | u other =>
      unfold Uncertainty.rfloordiv at h
      exact truediv_ok_shape _ _ _ h
  | pn m =>
      unfold Uncertainty.rfloordiv at h
      repeat' split at h
      all_goals
        first
          | exact new_ok_shape _ _ _ h
          | exact truediv_ok_shape _ _ _ h
          | simp at h

theorem mod_ok_shape (s : Uncertainty) (o : Operand) (u : Uncertainty)
    (h : Uncertainty.mod s o = .ok u) : ShapeOk u := by
  cases o <;> unfold Uncertainty.mod at h
  all_goals repeat' split at h
  all_goals first | exact new_ok_shape _ _ _ h | simp at h

theorem rmod_ok_shape (s : Uncertainty) (m : Mag) (u : Uncertainty)
    (h : Uncertainty.rmod s m = .ok u) : ShapeOk u := by
  unfold Uncertainty.rmod at h
  repeat' split at h
  all_goals first | exact new_ok_shape _ _ _ h | simp at h

theorem pow_ok_shape (s : Uncertainty) (o : Operand) (u : Uncertainty)
    (h : Uncertainty.pow s o = .ok u) : ShapeOk u := by
  cases o <;> unfold Uncertainty.pow at h
  all_goals repeat' split at h
  all_goals first | exact new_ok_shape _ _ _ h | simp at h

theorem rpow_ok_shape (s : Uncertainty) (m : Mag) (u : Uncertainty)
    (h : Uncertainty.rpow s m = .ok u) : ShapeOk u := by
  unfold Uncertainty.rpow at h
  repeat' split at h
  all_goals first | exact new_ok_shape _ _ _ h | simp at h

theorem divmod_ok_shape (s : Uncertainty) (o : Operand)
    (p : Uncertainty × Uncertainty) (h : Uncertainty.divmod s o = .ok p) :
    ShapeOk p.1 ∧ ShapeOk p.2 := by
  obtain ⟨p1, p2⟩ := p
  unfold Uncertainty.divmod at h
  cases hf : Uncertainty.floordiv s o with
  | error e => rw [hf] at h; simp at h
  | ok f =>
      rw [hf] at h
      cases hm : Uncertainty.mod s o with
      | error e => rw [hm] at h; simp at h
      | ok m =>
          rw [hm] at h
          simp at h
          obtain ⟨rfl, rfl⟩ := h
          exact ⟨floordiv_ok_shape s o _ hf, mod_ok_shape s o _ hm⟩

theorem rdivmod_ok_shape (s : Uncertainty) (m : Mag)
    (p : Uncertainty × Uncertainty) (h : Uncertainty.rdivmod s m = .ok p) :
    ShapeOk p.1 ∧ ShapeOk p.2 := by
  obtain ⟨p1, p2⟩ := p
  unfold Uncertainty.rdivmod at h
  cases hf : Uncertainty.rfloordiv s (.pn m) with
  | error e => rw [hf] at h; simp at h
  | ok f =>
      rw [hf] at h
      cases hm : Uncertainty.rmod s m with
      | error e => rw [hm] at h; simp at h
      | ok r =>
          rw [hm] at h
          simp at h
          obtain ⟨rfl, rfl⟩ := h
          exact ⟨rfloordiv_ok_shape s _ _ hf, rmod_ok_shape s m _ hm⟩

theorem abs_ok_shape (s u : Uncertainty)
    (h : Uncertainty.abs s = .ok u) : ShapeOk u := by
  unfold Uncertainty.abs at h
  exact new_ok_shape _ _ _ h

theorem pos_ok_shape (s u : Uncertainty)
    (h : Uncertainty.pos s = .ok u) : ShapeOk u := by
  unfold Uncertainty.pos at h
  exact new_ok_shape _ _ _ h

theorem round_ok_shape (s : Uncertainty) (rnd : ℝ → ℝ) (u : Uncertainty)
    (h : Uncertainty.round s rnd = .ok u) : ShapeOk u := by
  unfold Uncertainty.round at h
  repeat' split at h
  all_goals first | exact new_ok_shape _ _ _ h | simp at h

theorem real_ok_shape (s u : Uncertainty)
    (h : Uncertainty.real s = .ok u) : ShapeOk u := by
  unfold Uncertainty.real at h
  exact new_ok_shape _ _ _ h

theorem imag_ok_shape (s u : Uncertainty)
    (h : Uncertainty.imag s = .ok u) : ShapeOk u := by
  unfold Uncertainty.imag at h
  exact new_ok_shape _ _ _ h

theorem copy_ok_shape (s u : Uncertainty)
    (h : Uncertainty.copy s = .ok u) : ShapeOk u := by
  unfold Uncertainty.copy at h
  exact new_ok_shape _ _ _ h

theorem getitem_ok_shape (s : Uncertainty) (key : Nat) (u : Uncertainty)
    (h : Uncertainty.getitem s key = .ok u) : ShapeOk u := by
  unfold Uncertainty.getitem at h
  repeat' split at h
  all_goals first | exact new_ok_shape _ _ _ h | simp at h

theorem clip_ok_shape (s : Uncertainty) (lo hi : Option ℝ) (u : Uncertainty)
    (h : Uncertainty.clip s lo hi = .ok u) : ShapeOk u := by
  unfold Uncertainty.clip at h
  repeat' split at h
  all_goals first | exact new_ok_shape _ _ _ h | simp at h

theorem iter_ok_shape (s : Uncertainty) (l : List (Except PyError Uncertainty))
    (h : Uncertainty.iter s = .ok l) :
    ∀ x ∈ l, ∀ u, x = .ok u → ShapeOk u := by
  unfold Uncertainty.iter at h
  repeat' split at h
  all_goals
    first
      | (rw [Except.ok.injEq] at h
         subst h
         intro x hx u hxu
         rw [List.mem_map] at hx
         obtain ⟨p, hp, rfl⟩ := hx
         exact new_ok_shape _ _ _ hxu)
      | simp at h

theorem from_sequence_ok_shape (seq : List Uncertainty) (u : Uncertainty)
    (h : Uncertainty.from_sequence seq = .ok u) : ShapeOk u := by
  unfold Uncertainty.from_sequence at h
  repeat' split at h
  all_goals first | exact new_ok_shape _ _ _ h | simp at h

theorem tolist_ok_shape (s : Uncertainty) (l : List (Except PyError Uncertainty))
    (h : Uncertainty.tolist s = .ok l) :
    ∀ x ∈ l, ∀ u, x = .ok u → ShapeOk u := by
  unfold Uncertainty.tolist at h
  repeat' split at h
  all_goals
    first
      | (rw [Except.ok.injEq] at h
         subst h
         intro x hx u hxu
         simp only [List.mem_cons, List.mem_singleton, List.not_mem_nil,
           or_false] at hx
         rcases hx with rfl | rfl
         · exact new_ok_shape _ _ _ hxu
         · exact new_ok_shape _ _ _ hxu)
      | simp at h

theorem setitem_ok_shape (s : Uncertainty) (key : Nat) (v : Operand)
    (r : Uncertainty) (hs : ShapeOk s)
    (h : Uncertainty.setitem s key v = .ok r) : ShapeOk r := by
  cases v with
  | pn m => simp [Uncertainty.setitem] at h
  | u value =>
      rcases hn : s.nom with x | ns <;> rcases he : s.err with y | es <;>
        simp only [Uncertainty.setitem, hn, he] at h
      · simp at h
      · simp at h
      · simp at h
      · by_cases hk : key < ns.length
        · rw [if_pos hk] at h
          rcases hvn : value.nom with vx | vns <;>
            rcases hve : value.err with vy | ves <;>
              simp only [hvn, hve] at h
          · rw [Except.ok.injEq] at h
            subst h
            simp only [ShapeOk] at hs ⊢
            rw [hn, he] at hs
            simp only [Mag.shape] at hs ⊢
            simp only [List.length_set]
            exact hs
          · simp at h
          · simp at h
          · simp at h
        · rw [if_neg hk] at h
          simp at h

theorem setShape_ok_shape (s : Uncertainty) (value : List Nat) (r : Uncertainty)
    (h : Uncertainty.setShape s value = .ok r) : ShapeOk r := by
  rcases hn : s.nom with x | ns <;> rcases he : s.err with y | es <;>
    simp only [Uncertainty.setShape, hn, he] at h
  · simp at h
  · simp at h
  · simp at h
  · by_cases h1 : value = [ns.length]
    · rw [if_pos h1] at h
      by_cases h2 : value = [es.length]
      · rw [if_pos h2] at h
        rw [Except.ok.injEq] at h
        subst h
        simp only [ShapeOk, Mag.shape]
        rw [← h1, ← h2]
      · rw [if_neg h2] at h
        simp at h
    · rw [if_neg h1] at h
      simp at h

theorem iadd_ok_shape (s : Uncertainty) (o : Operand) (r : CallResult)
    (hs : ShapeOk s) (h : Uncertainty.iadd s o = .ok r) :
    ShapeOk r.ret ∧ ShapeOk r.selfAfter := by
  obtain ⟨ret, selfAfter, flag⟩ := r
  unfold Uncertainty.iadd at h
  cases hn : Uncertainty.add s o with
  | error e => rw [hn] at h; simp at h
  | ok n =>
      rw [hn] at h
      have hni : ShapeOk n := add_ok_shape s o n hn
      by_cases ha : s.nom.isArray = true
      · simp [ha] at h
        rcases h with ⟨rfl, rfl, rfl⟩
        exact ⟨hni, hni⟩
      · simp [ha] at h
        rcases h with ⟨rfl, rfl, rfl⟩
        exact ⟨hni, hs⟩

theorem inplace_ok_shape
    (op : Uncertainty → Operand → Except PyError Uncertainty)
    (hop : ∀ s o u, op s o = .ok u → ShapeOk u)
    (s : Uncertainty) (o : Operand) (r : CallResult)
    (hs : ShapeOk s) (h : Uncertainty.inplace op s o = .ok r) :
    ShapeOk r.ret ∧ ShapeOk r.selfAfter := by
  obtain ⟨ret, selfAfter, flag⟩ := r
  unfold Uncertainty.inplace at h
  cases hn : op s o with
  | error e => rw [hn] at h; simp at h
  | ok n =>
      rw [hn] at h
      have hni : ShapeOk n := hop s o n hn
      by_cases ha : s.nom.isArray = true
      · simp [ha] at h
        rcases h with ⟨rfl, rfl, rfl⟩
        exact ⟨hni, hni⟩
      · simp [ha] at h
        rcases h with ⟨rfl, rfl, rfl⟩
        exact ⟨hni, hs⟩

/-- Claim C1: for every (nominal, error) pair of matching shape whose error
elements are all non-negative, `Uncertainty(nominal, error)` succeeds, and
the `value` and `error` accessors return exactly the nominal and error that
were passed in. -/
theorem construction_roundtrip (v e : Mag) (hsh : v.shape = e.shape)
    (hnn : ∀ x ∈ e.elems, 0 ≤ x) :
    Uncertainty.new v e = .ok ⟨v, e⟩
      ∧ Uncertainty.value ⟨v, e⟩ = v ∧ Uncertainty.error ⟨v, e⟩ = e :=
  ⟨new_ok_of v e hsh hnn, rfl, rfl⟩

/-- Witness for C1 at the concrete pair `(3, 0.5)`. -/
theorem construction_roundtrip_witness :
    Uncertainty.new (.scalar 3) (.scalar 0.5) = .ok ⟨.scalar 3, .scalar 0.5⟩
      ∧ Uncertainty.value ⟨.scalar 3, .scalar 0.5⟩ = .scalar 3
      ∧ Uncertainty.error ⟨.scalar 3, .scalar 0.5⟩ = .scalar 0.5 :=
  construction_roundtrip (.scalar 3) (.scalar 0.5) rfl
    (by intro x hx; simp [Mag.elems] at hx; rw [hx]; norm_num)

/-- Counterexample to claim C2 as stated: the pair `(0, [-1.0])` has a
negative error element, yet construction raises the shape `AssertionError`
(the shape assert runs first), not `NegativeStdDevError`. -/
theorem negative_error_shape_assert_first :
    (∃ x ∈ (Mag.array [-1]).elems, x < 0)
      ∧ Uncertainty.new (.scalar 0) (.array [-1]) = .error .shapeMismatch
      ∧ Uncertainty.new (.scalar 0) (.array [-1]) ≠ .error .negativeStdDev := by
  refine ⟨⟨-1, by simp [Mag.elems], by norm_num⟩, ?_, ?_⟩
  · unfold Uncertainty.new
    rw [if_neg (by simp [Mag.shape])]
  · unfold Uncertainty.new
    rw [if_neg (by simp [Mag.shape])]
    simp

/-- Claim C2 (amended): for every (nominal, error) pair of **matching shape**
in which at least one element of error is negative, construction fails with
`NegativeStdDevError` and no instance is produced. -/
theorem negative_error_rejected (v e : Mag) (hsh : v.shape = e.shape)
    (hneg : ∃ x ∈ e.elems, x < 0) :
    Uncertainty.new v e = .error .negativeStdDev :=
  new_neg_elem v e hsh hneg

/-- Witness for the amended C2 at the concrete pair `(1, -0.5)`. -/
theorem negative_error_rejected_witness :
    Uncertainty.new (.scalar 1) (.scalar (-0.5)) = .error .negativeStdDev :=
  negative_error_rejected (.scalar 1) (.scalar (-0.5)) rfl
    ⟨-0.5, by simp [Mag.elems], by norm_num⟩

/-- Claim C3 fails on the code: dividing `Uncertainty(-2, 0.1)` by
`Uncertainty(2, 0.1)` (both nominals nonzero) does not return a value with
error `|x/y|·sqrt((ex/x)² + (ey/y)²)`; the source computes the error as the
*signed* `(x/y)·sqrt(...)`, which is negative here, so re-construction of the
result raises `NegativeStdDevError`. -/
theorem truediv_negative_quotient_raises :
    Uncertainty.truediv ⟨.scalar (-2), .scalar 0.1⟩ (.u ⟨.scalar 2, .scalar 0.1⟩)
      = .error .negativeStdDev := by
  have hrel1 : Uncertainty.relative ⟨.scalar (-2), .scalar 0.1⟩
      = some (.scalar (0.1 / -2)) := by
    norm_num [Uncertainty.relative, Mag.map2]
  have hrel2 : Uncertainty.relative ⟨.scalar 2, .scalar 0.1⟩
      = some (.scalar (0.1 / 2)) := by
    norm_num [Uncertainty.relative, Mag.map2]
  have hneg : (-2 : ℝ) / 2 * Real.sqrt ((0.1 / -2) ^ 2 + (0.1 / 2) ^ 2) < 0 :=
    mul_neg_of_neg_of_pos (by norm_num) (Real.sqrt_pos.mpr (by norm_num))
  simp only [Uncertainty.truediv, Mag.map2, hrel1, hrel2]
  exact new_neg_elem _ _ rfl ⟨_, by simp [Mag.elems], hneg⟩

/-- Claim C4 fails on the code for the power operator: `Uncertainty(2, 0) ** 3`
produces nominal `2 % 3 = 2` with error `0`, whereas the power operation's
nominal would be `2 ** 3 = 8 ≠ 2` (the source's `__pow__` applies `%`, the
modulo, to the nominals). -/
theorem pow_applies_modulo :
    Uncertainty.pow ⟨.scalar 2, .scalar 0⟩ (.pn (.scalar 3))
        = .ok ⟨.scalar 2, .scalar 0⟩
      ∧ (2 : ℝ) ^ (3 : ℕ) = 8 ∧ (2 : ℝ) ≠ 8 := by
  have hfloor : ⌊(2 : ℝ) / 3⌋ = 0 := by
    rw [Int.floor_eq_zero_iff, Set.mem_Ico]
    constructor <;> norm_num
  have hm : pmodR 2 3 = 2 := by
    unfold pmodR
    rw [hfloor]
    norm_num
  refine ⟨?_, by norm_num, by norm_num⟩
  simp only [Uncertainty.pow, Mag.map2, hm]
  exact new_ok_of _ _ rfl (by intro x hx; simp [Mag.elems] at hx; simp [hx])

/-- Counterexample to claim C5 as stated: multiplying `Uncertainty(1, 0.1)`
by the plain scalar `-1` does not return `Uncertainty(1 * -1, 0.1 * -1)`; the
computed error `0.1 * -1` is negative, so re-construction of the result
raises `NegativeStdDevError`. -/
theorem mul_negative_scalar_raises :
    Uncertainty.mul ⟨.scalar 1, .scalar 0.1⟩ (.pn (.scalar (-1)))
        = .error .negativeStdDev
      ∧ Uncertainty.mul ⟨.scalar 1, .scalar 0.1⟩ (.pn (.scalar (-1)))
          ≠ .ok ⟨.scalar (1 * -1), .scalar (0.1 * -1)⟩ := by
  have h : Uncertainty.mul ⟨.scalar 1, .scalar 0.1⟩ (.pn (.scalar (-1)))
      = .error .negativeStdDev := by
    simp only [Uncertainty.mul, Mag.map2]
    exact new_neg_elem _ _ rfl ⟨0.1 * -1, by simp [Mag.elems], by norm_num⟩
  exact ⟨h, by rw [h]; simp⟩

/-- Claim C5 (amended): for every `Uncertainty(x, e)` (so `0 ≤ e`) and every
plain scalar `k ≥ 0`, the product is exactly `Uncertainty(x*k, e*k)` in both
components, with no quadrature combination.  (For `k < 0` and `e > 0` the
signed error `e*k` is negative and the code raises `NegativeStdDevError`.) -/
theorem mul_plain_scalar_exact (x e k : ℝ) (he : 0 ≤ e) (hk : 0 ≤ k) :
    Uncertainty.mul ⟨.scalar x, .scalar e⟩ (.pn (.scalar k))
      = .ok ⟨.scalar (x * k), .scalar (e * k)⟩ := by
  simp only [Uncertainty.mul, Mag.map2]
  exact new_ok_of _ _ rfl
    (by intro y hy; simp [Mag.elems] at hy; rw [hy]; exact mul_nonneg he hk)

/-- Witness for the amended C5 at `x = 2`, `e = 0.5`, `k = 3`. -/
theorem mul_plain_scalar_exact_witness :
    Uncertainty.mul ⟨.scalar 2, .scalar 0.5⟩ (.pn (.scalar 3))
      = .ok ⟨.scalar (2 * 3), .scalar (0.5 * 3)⟩ :=
  mul_plain_scalar_exact 2 0.5 3 (by norm_num) (by norm_num)

/-- Claim C6: equality and the orderings compare only the nominal
components — for all scalar uncertainties the outcomes are exactly the
corresponding relations on the nominals, with the error components `ex`,
`ey` absent from every right-hand side; equality against a plain number
compares the nominal to that number; in particular
`Uncertainty(3, 0.1) == Uncertainty(3, 99.0)` and
`Uncertainty(3, 0.1) == 3` both hold. -/
theorem comparisons_use_nominal_only (x ex y ey : ℝ) :
    (Uncertainty.eqOp ⟨.scalar x, .scalar ex⟩ (.u ⟨.scalar y, .scalar ey⟩) ↔ x = y)
      ∧ (Uncertainty.lt ⟨.scalar x, .scalar ex⟩ (.u ⟨.scalar y, .scalar ey⟩) ↔ x < y)
      ∧ (Uncertainty.le ⟨.scalar x, .scalar ex⟩ (.u ⟨.scalar y, .scalar ey⟩) ↔ x ≤ y)
      ∧ (Uncertainty.gt ⟨.scalar x, .scalar ex⟩ (.u ⟨.scalar y, .scalar ey⟩) ↔ y < x)
      ∧ (Uncertainty.ge ⟨.scalar x, .scalar ex⟩ (.u ⟨.scalar y, .scalar ey⟩) ↔ y ≤ x)
      ∧ (Uncertainty.eqOp ⟨.scalar x, .scalar ex⟩ (.pn (.scalar y)) ↔ x = y)
      ∧ Uncertainty.eqOp ⟨.scalar 3, .scalar 0.1⟩ (.u ⟨.scalar 3, .scalar 99⟩)
      ∧ Uncertainty.eqOp ⟨.scalar 3, .scalar 0.1⟩ (.pn (.scalar 3)) := by
  simp [Uncertainty.eqOp, Uncertainty.lt, Uncertainty.le, Uncertainty.gt,
    Uncertainty.ge, Uncertainty.compare, Mag.eqP, Mag.ltP, Mag.leP, Mag.gtP,
    Mag.geP]

/-- Claim C7: mismatching shapes are rejected at construction with the shape
assertion before any instance is produced, and every successfully produced
instance satisfies `shape(nominal) = shape(error)` — by construction and by
every modelled operation that returns or yields instances (each of which
rebuilds its result through `__new__`): the arithmetic operators and their
reflected variants, `divmod`/`rdivmod`, the unary operators, the structural
and conversion operations (`__getitem__`, `clip`, `__iter__`,
`from_sequence`, `tolist`, `real`/`imag`, `__copy__`, `__round__`), the
mutating `__setitem__` and `shape` setter (which preserve the invariant of a
valid instance), and the in-place operators (for both the returned object
and the post-call state of `self`). -/
theorem shape_invariant :
    (∀ v e : Mag, v.shape ≠ e.shape →
        Uncertainty.new v e = .error .shapeMismatch)
  ∧ (∀ (v e : Mag) (u : Uncertainty),
      Uncertainty.new v e = .ok u → ShapeOk u)
  ∧ (∀ (s : Uncertainty) (o : Operand) (u : Uncertainty),
      Uncertainty.add s o = .ok u → ShapeOk u)
  ∧ (∀ (s : Uncertainty) (o : Operand) (u : Uncertainty),
      Uncertainty.sub s o = .ok u → ShapeOk u)
  ∧ (∀ s u : Uncertainty, Uncertainty.neg s = .ok u → ShapeOk u)
  ∧ (∀ (s : Uncertainty) (o : Operand) (u : Uncertainty),
      Uncertainty.mul s o = .ok u → ShapeOk u)
  ∧ (∀ (s : Uncertainty) (o : Operand) (u : Uncertainty),
      Uncertainty.truediv s o = .ok u → ShapeOk u)
  ∧ (∀ (s : Uncertainty) (o : Operand) (u : Uncertainty),
      Uncertainty.rtruediv s o = .ok u → ShapeOk u)
  ∧ (∀ (s : Uncertainty) (o : Operand) (u : Uncertainty),
      Uncertainty.floordiv s o = .ok u → ShapeOk u)
  ∧ (∀ (s : Uncertainty) (o : Operand) (u : Uncertainty),
      Uncertainty.rfloordiv s o = .ok u → ShapeOk u)
  ∧ (∀ (s : Uncertainty) (o : Operand) (u : Uncertainty),
      Uncertainty.mod s o = .ok u → ShapeOk u)
  ∧ (∀ (s : Uncertainty) (m : Mag) (u : Uncertainty),
      Uncertainty.rmod s m = .ok u → ShapeOk u)
  ∧ (∀ (s : Uncertainty) (o : Operand) (u : Uncertainty),
      Uncertainty.pow s o = .ok u → ShapeOk u)
  ∧ (∀ (s : Uncertainty) (m : Mag) (u : Uncertainty),
      Uncertainty.rpow s m = .ok u → ShapeOk u)
  ∧ (∀ (s : Uncertainty) (o : Operand) (p : Uncertainty × Uncertainty),
      Uncertainty.divmod s o = .ok p → ShapeOk p.1 ∧ ShapeOk p.2)
  ∧ (∀ (s : Uncertainty) (m : Mag) (p : Uncertainty × Uncertainty),
      Uncertainty.rdivmod s m = .ok p → ShapeOk p.1 ∧ ShapeOk p.2)
  ∧ (∀ s u : Uncertainty, Uncertainty.abs s = .ok u → ShapeOk u)
  ∧ (∀ s u : Uncertainty, Uncertainty.pos s = .ok u → ShapeOk u)
  ∧ (∀ (s : Uncertainty) (rnd : ℝ → ℝ) (u : Uncertainty),
      Uncertainty.round s rnd = .ok u → ShapeOk u)
  ∧ (∀ s u : Uncertainty, Uncertainty.real s = .ok u → ShapeOk u)
  ∧ (∀ s u : Uncertainty, Uncertainty.imag s = .ok u → ShapeOk u)
  ∧ (∀ s u : Uncertainty, Uncertainty.copy s = .ok u → ShapeOk u)
  ∧ (∀ (s : Uncertainty) (key : Nat) (u : Uncertainty),
      Uncertainty.getitem s key = .ok u → ShapeOk u)
  ∧ (∀ (s : Uncertainty) (lo hi : Option ℝ) (u : Uncertainty),
      Uncertainty.clip s lo hi = .ok u → ShapeOk u)
  ∧ (∀ (s : Uncertainty) (l : List (Except PyError Uncertainty)),
      Uncertainty.iter s = .ok l → ∀ x ∈ l, ∀ u, x = .ok u → ShapeOk u)
  ∧ (∀ (seq : List Uncertainty) (u : Uncertainty),
      Uncertainty.from_sequence seq = .ok u → ShapeOk u)
  ∧ (∀ (s : Uncertainty) (l : List (Except PyError Uncertainty)),
      Uncertainty.tolist s = .ok l → ∀ x ∈ l, ∀ u, x = .ok u → ShapeOk u)
  ∧ (∀ (s : Uncertainty) (key : Nat) (v : Operand) (r : Uncertainty),
      ShapeOk s → Uncertainty.setitem s key v = .ok r → ShapeOk r)
  ∧ (∀ (s : Uncertainty) (value : List Nat) (r : Uncertainty),
      Uncertainty.setShape s value = .ok r → ShapeOk r)
  ∧ (∀ (s : Uncertainty) (o : Operand) (r : CallResult),
      ShapeOk s → Uncertainty.iadd s o = .ok r →
        ShapeOk r.ret ∧ ShapeOk r.selfAfter)
  ∧ (∀ (s : Uncertainty) (o : Operand) (r : CallResult),
      ShapeOk s → Uncertainty.isub s o = .ok r →
        ShapeOk r.ret ∧ ShapeOk r.selfAfter)
  ∧ (∀ (s : Uncertainty) (o : Operand) (r : CallResult),
      ShapeOk s → Uncertainty.imul s o = .ok r →
        ShapeOk r.ret ∧ ShapeOk r.selfAfter)
  ∧ (∀ (s : Uncertainty) (o : Operand) (r : CallResult),
      ShapeOk s → Uncertainty.itruediv s o = .ok r →
        ShapeOk r.ret ∧ ShapeOk r.selfAfter)
  ∧ (∀ (s : Uncertainty) (o : Operand) (r : CallResult),
      ShapeOk s → Uncertainty.ifloordiv s o = .ok r →
        ShapeOk r.ret ∧ ShapeOk r.selfAfter)
  ∧ (∀ (s : Uncertainty) (o : Operand) (r : CallResult),
      ShapeOk s → Uncertainty.imod s o = .ok r →
        ShapeOk r.ret ∧ ShapeOk r.selfAfter)
  ∧ (∀ (s : Uncertainty) (o : Operand) (r : CallResult),
      ShapeOk s → Uncertainty.ipow s o = .ok r →
        ShapeOk r.ret ∧ ShapeOk r.selfAfter)
  ∧ (∀ (op : Uncertainty → Operand → Except PyError Uncertainty),
      (∀ s o u, op s o = .ok u → ShapeOk u) →
      ∀ (s : Uncertainty) (o : Operand) (r : CallResult),
        ShapeOk s → Uncertainty.inplace op s o = .ok r →
          ShapeOk r.ret ∧ ShapeOk r.selfAfter) := by
  refine ⟨?_, new_ok_shape, add_ok_shape, sub_ok_shape, neg_ok_shape,
    mul_ok_shape, truediv_ok_shape, rtruediv_ok_shape, floordiv_ok_shape,
    rfloordiv_ok_shape, mod_ok_shape, rmod_ok_shape, pow_ok_shape,
    rpow_ok_shape, divmod_ok_shape, rdivmod_ok_shape, abs_ok_shape,
    pos_ok_shape, round_ok_shape, real_ok_shape, imag_ok_shape,
    copy_ok_shape, getitem_ok_shape, clip_ok_shape, iter_ok_shape,
    from_sequence_ok_shape, tolist_ok_shape, setitem_ok_shape,
    setShape_ok_shape, iadd_ok_shape, ?_, ?_, ?_, ?_, ?_, ?_,
    inplace_ok_shape⟩
  · intro v e h
    unfold Uncertainty.new
    rw [if_neg h]
  · intro s o r hs h
    unfold Uncertainty.isub at h
    exact inplace_ok_shape _ sub_ok_shape _ _ _ hs h
  · intro s o r hs h
    unfold Uncertainty.imul at h
    exact inplace_ok_shape _ mul_ok_shape _ _ _ hs h
  · intro s o r hs h
    unfold Uncertainty.itruediv at h
    exact inplace_ok_shape _ truediv_ok_shape _ _ _ hs h
  · intro s o r hs h
    unfold Uncertainty.ifloordiv at h
    exact inplace_ok_shape _ floordiv_ok_shape _ _ _ hs h
  · intro s o r hs h
    unfold Uncertainty.imod at h
    exact inplace_ok_shape _ mod_ok_shape _ _ _ hs h
  · intro s o r hs h
    unfold Uncertainty.ipow at h
    exact inplace_ok_shape _ pow_ok_shape _ _ _ hs h

/-- Witness for C7: a concrete mismatched pair is rejected, and a concrete
successful construction has matching shapes. -/
theorem shape_invariant_witness :
    Uncertainty.new (.scalar 0) (.array [1]) = .error .shapeMismatch
      ∧ ShapeOk ⟨.scalar 5, .scalar 1⟩ :=
  ⟨shape_invariant.1 (.scalar 0) (.array [1]) (by simp [Mag.shape]),
   shape_invariant.2.1 (.scalar 5) (.scalar 1) ⟨.scalar 5, .scalar 1⟩
     (new_ok_of _ _ rfl (by intro x hx; simp [Mag.elems] at hx; simp [hx]))⟩

/-- Claim C8: when `self + other` succeeds, `+=` on an array-backed `self`
updates `self`'s own nominal/error attributes to the sum and returns the
same instance (`retIsSelf = true`, so any prior reference observes the new
state), while on a scalar-backed `self` it leaves `self` unchanged and
returns the freshly built sum instead. -/
theorem iadd_mutates_array_backed (s : Uncertainty) (o : Operand)
    (n : Uncertainty) (h : Uncertainty.add s o = .ok n) :
    (s.nom.isArray = true → Uncertainty.iadd s o = .ok ⟨n, n, true⟩)
      ∧ (s.nom.isArray = false → Uncertainty.iadd s o = .ok ⟨n, s, false⟩) := by
  unfold Uncertainty.iadd
  rw [h]
  constructor <;> intro hx <;> rw [hx] <;> simp

/-- Witness for C8 in the array-backed case: `[1] ± 0 += 1` mutates `self`
to `[2] ± 0` and returns it. -/
theorem iadd_mutates_array_backed_witness :
    Uncertainty.iadd ⟨.array [1], .array [0]⟩ (.pn (.scalar 1))
      = .ok ⟨⟨.array [2], .array [0]⟩, ⟨.array [2], .array [0]⟩, true⟩ :=
  (iadd_mutates_array_backed ⟨.array [1], .array [0]⟩ (.pn (.scalar 1))
    ⟨.array [2], .array [0]⟩
    (by
      have hm : Mag.map2 (· + ·) (.array [1]) (.scalar 1)
          = some (.array [2]) := by
        norm_num [Mag.map2]
      simp only [Uncertainty.add, hm]
      exact new_ok_of _ _ rfl
        (by intro x hx; simp [Mag.elems] at hx; simp [hx]))).1 rfl

/-- Every outcome of `__rsub__` is either a raised exception or `None`. -/
theorem rsub_cases (s : Uncertainty) (o : Operand) :
    Uncertainty.rsub s o = .ok none
      ∨ ∃ e, Uncertainty.rsub s o = .error e := by
  unfold Uncertainty.rsub
  rcases hs : Uncertainty.sub s o with e | d
  · simp only [hs]
    exact .inr ⟨e, rfl⟩
  · simp only [hs]
    rcases hn : Uncertainty.neg d with e | x
    · simp only [hn]
      exact .inr ⟨e, rfl⟩
    · simp only [hn]
      exact .inl trivial

/-- Claim C9: whenever `other - self` (dispatched to `__rsub__`) returns at
all, it returns `None` rather than an `Uncertainty`: the negated difference
is computed and then discarded. -/
theorem rsub_returns_none (s : Uncertainty) (o : Operand)
    (h : ∃ r, Uncertainty.rsub s o = .ok r) :
    Uncertainty.rsub s o = .ok none := by
  obtain ⟨r, hr⟩ := h
  rcases rsub_cases s o with hc | ⟨e, hc⟩
  · exact hc
  · rw [hc] at hr
    simp at hr

/-- Witness for C9 at `2 - Uncertainty(1, 0)`. -/
theorem rsub_returns_none_witness :
    Uncertainty.rsub ⟨.scalar 1, .scalar 0⟩ (.pn (.scalar 2)) = .ok none :=
  rsub_returns_none ⟨.scalar 1, .scalar 0⟩ (.pn (.scalar 2))
    ⟨none, by
      have hsub : Uncertainty.sub ⟨.scalar 1, .scalar 0⟩ (.pn (.scalar 2))
          = .ok ⟨.scalar (1 - 2), .scalar 0⟩ := by
        simp only [Uncertainty.sub, Mag.map2]
        exact new_ok_of _ _ rfl
          (by intro x hx; simp [Mag.elems] at hx; simp [hx])
      have hneg : Uncertainty.neg ⟨.scalar (1 - 2), .scalar 0⟩
          = .ok ⟨.scalar (-(1 - 2)), .scalar 0⟩ := by
        simp only [Uncertainty.neg, Mag.map]
        exact new_ok_of _ _ rfl
          (by intro x hx; simp [Mag.elems] at hx; simp [hx])
      simp only [Uncertainty.rsub, hsub, hneg]⟩

/-- Claim C10: the truth value of an `Uncertainty` is exactly the truth
value of its nominal alone — a scalar instance is truthy iff its nominal is
nonzero, for every error value — and in particular `Uncertainty(0, 5.0)` is
falsy. -/
theorem bool_uses_nominal_only (x e : ℝ) :
    (Uncertainty.toBool ⟨.scalar x, .scalar e⟩ ↔ x ≠ 0)
      ∧ ¬ Uncertainty.toBool ⟨.scalar 0, .scalar 5⟩ := by
  constructor
  · exact Iff.rfl
  · simp [Uncertainty.toBool, Mag.truthy]

end AutoUncertainties
